import Mathlib

/-!
Verification development for the NLP news classifier repository.

The definitions below are a shallow embedding of the Python sources:
  * `src/backend/utils.py`   — text normalization (`preprocess_text`),
  * `src/backend/model_service.py` — the inference service
    (`NewsClassifierService.predict`, `_predict_sklearn`, `_predict_transformer`),
  * `src/backend/main.py`    — the `batch_predict` endpoint,
  * `src/ml_model/train.py`  — the training pipeline's class ordering,
  * `src/ml_model/download_multisource_data.py` and
    `src/ml_model/download_comprehensive_data.py` — the length filter of the
    dataset curator.

Machine floats are modelled as exact rationals (`ℚ`); Python exceptions are
modelled with `Except`.  The external collaborators (NLTK tokenizer and
lemmatizer, the scikit-learn vectorizer/naive-Bayes model at their
`transform` / `predict_proba` boundaries, and the transformers zero-shot
pipeline) are modelled as explicit parameters carrying exactly the
behaviour the repository's code relies on.
-/

namespace NewsNLP

/-- Whitespace characters recognised by Python's `\s` on ASCII text. -/
def isWs (c : Char) : Bool :=
  c = ' ' || c = '\t' || c = '\n' || c = '\r' || c = '\x0b' || c = '\x0c'

/-- ASCII lower-casing of one character (`str.lower` on the ASCII range). -/
def lowerCh (c : Char) : Char :=
  if 'A' ≤ c && c ≤ 'Z' then Char.ofNat (c.toNat + 32) else c

/-- Word characters of Python's `\w` on ASCII text: letters, digits, underscore. -/
def isWordCh (c : Char) : Bool :=
  ('a' ≤ c && c ≤ 'z') || ('A' ≤ c && c ≤ 'Z') || ('0' ≤ c && c ≤ '9') || c = '_'

/-- Characters of the class `[\w\.-]` used by the e-mail regex in
`preprocess_text` (src/backend/utils.py line 56). -/
def isEmailCh (c : Char) : Bool :=
  isWordCh c || c = '.' || c = '-'

/-- Length of the match of `http\S+|www\S+|https\S+` starting at the head of
`l`, or `0` when no match starts here (src/backend/utils.py line 50).  The
`https\S+` alternative is subsumed by `http\S+`.  `\S+` is greedy, so a match
consumes the maximal following run of non-whitespace characters. -/
def urlMatchLen (l : List Char) : Nat :=
  if l.take 4 = ['h', 't', 't', 'p'] && ((l.drop 4).head?.map (fun c => !isWs c)).getD false then
    4 + ((l.drop 4).takeWhile (fun c => !isWs c)).length
  else if l.take 3 = ['w', 'w', 'w'] && ((l.drop 3).head?.map (fun c => !isWs c)).getD false then
    3 + ((l.drop 3).takeWhile (fun c => !isWs c)).length
  else 0

/-- Length of the match of `<[^>]+>` starting at the head of `l`, or `0`
(src/backend/utils.py line 53).  `[^>]+` cannot contain `>`, so the greedy
run must be followed directly by `>`. -/
def htmlMatchLen (l : List Char) : Nat :=
  match l with
  | '<' :: rest =>
    let inner := rest.takeWhile (fun c => c != '>')
    if inner.length ≥ 1 && ((rest.drop inner.length).head? == some '>') then
      inner.length + 2
    else 0
  | _ => 0

/-- Inside the maximal `[\w\.-]` run `s` following the `@`, the greedy engine
keeps `[\w\.-]+` as long as possible, so the `\.` of the pattern binds to the
last index `j ≥ 1` holding a dot followed by a word character. -/
def emailDotIdx (s : List Char) : Option Nat :=
  ((List.range s.length).filter (fun j =>
      decide (1 ≤ j) && (s.get? j == some '.') && ((s.get? (j + 1)).map isWordCh).getD false)).max?

/-- Length of the match of `[\w\.-]+@[\w\.-]+\.\w+` starting at the head of
`l`, or `0` (src/backend/utils.py line 56).  Since `@` is not in the class
`[\w\.-]`, the first group is exactly the maximal class run and the engine
only backtracks in the choice of where `[\w\.-]+\.\w+` splits. -/
def emailMatchLen (l : List Char) : Nat :=
  let r1 := l.takeWhile isEmailCh
  if r1.length = 0 then 0
  else
    match l.drop r1.length with
    | '@' :: l3 =>
      let s := l3.takeWhile isEmailCh
      match emailDotIdx s with
      | some j => r1.length + 1 + (j + 1) + ((s.drop (j + 1)).takeWhile isWordCh).length
      | none => 0
    | _ => 0

/-- Worker for `subScan`, structurally recursive on a fuel bounded below by
the number of remaining characters (a match always deletes at least one
character, so the fuel never runs out on `subScan`'s initial call). -/
def subScanF (matchLen : List Char → Nat) : Nat → List Char → List Char
  | _, [] => []
  | 0, l => l
  | fuel + 1, c :: cs =>
    let n := matchLen (c :: cs)
    if n = 0 then c :: subScanF matchLen fuel cs
    else subScanF matchLen fuel ((c :: cs).drop n)

/-- `re.sub(pattern, '', text)`: scan left to right; where a match of positive
length `n` starts, delete those `n` characters and resume after them,
otherwise keep the character and move on. -/
def subScan (matchLen : List Char → Nat) (l : List Char) : List Char :=
  subScanF matchLen l.length l

/-- Worker for `splitWsCh`, structurally recursive on a fuel bounded below by
the number of remaining characters. -/
def splitWsChF : Nat → List Char → List (List Char)
  | _, [] => []
  | 0, l => [l]
  | fuel + 1, c :: cs =>
    if isWs c then splitWsChF fuel cs
    else
      let run := (c :: cs).takeWhile (fun d => !isWs d)
      run :: splitWsChF fuel ((c :: cs).drop run.length)

/-- Split a character list into its maximal runs of non-whitespace characters. -/
def splitWsCh (l : List Char) : List (List Char) :=
  splitWsChF l.length l

/-- The whitespace tokens of a string (used to model `word_tokenize` on the
post-cleaning alphabet of lowercase letters and spaces, where the NLTK
tokenizer coincides with whitespace splitting). -/
def splitWsStr (s : String) : List String :=
  (splitWsCh s.toList).map String.mk

/-- The cleaning stage of `preprocess_text` (src/backend/utils.py lines
45-62): lower-case, strip URLs, strip HTML tags, strip e-mail addresses, keep
only `[a-z\s]`, collapse whitespace runs to single spaces and strip the ends.
This is the value bound to the Python variable `text` when tokenization
starts, and hence the value returned by the `except` clause on any later
internal error. -/
def cleanStage (text : String) : String :=
  let l0 := text.toList.map lowerCh
  let l1 := subScan urlMatchLen l0
  let l2 := subScan htmlMatchLen l1
  let l3 := subScan emailMatchLen l2
  let l4 := l3.filter (fun c => ('a' ≤ c && c ≤ 'z') || isWs c)
  String.intercalate " " ((splitWsCh l4).map String.mk)

/-- Environment holding the external NLTK resources used by
`preprocess_text`: the stopword corpus, `word_tokenize` and the WordNet
lemmatizer.  The latter two may raise (e.g. `LookupError` when the NLTK data
pack is absent), which the embedding expresses with `Except`. -/
structure NlpEnv where
  stops : List String
  tokenize : String → Except String (List String)
  lemmatize : String → Except String String

/-- The list comprehension of src/backend/utils.py lines 68-72: drop tokens
that are stopwords or of length at most 2, lemmatize the remaining ones, in
left-to-right order; a lemmatizer failure aborts the whole comprehension. -/
def lemmatizeKept (env : NlpEnv) : List String → Except String (List String)
  | [] => Except.ok []
  | tok :: rest =>
    if tok ∈ env.stops ∨ tok.length ≤ 2 then lemmatizeKept env rest
    else do
      let l ← env.lemmatize tok
      let ls ← lemmatizeKept env rest
      pure (l :: ls)

/-- `preprocess_text` (src/backend/utils.py lines 27-81).  The `try` body
rebinds `text` step by step; an exception raised by tokenization or
lemmatization is caught and the *current* binding of `text` — the cleaned
string — is returned.  If the processed result is empty the cleaned string is
returned as well (line 77). -/
def preprocess_text (env : NlpEnv) (text : String) : String :=
  let cleaned := cleanStage text
  match env.tokenize cleaned with
  | Except.error _ => cleaned
  | Except.ok tokens =>
    match lemmatizeKept env tokens with
    | Except.error _ => cleaned
    | Except.ok toks =>
      let processed := String.intercalate " " toks
      if processed = "" then cleaned else processed

/-- An environment whose tokenizer and lemmatizer never raise: the tokenizer
splits on whitespace (the behaviour of `word_tokenize` on the post-cleaning
alphabet) and the lemmatizer is the pure function `lem`. -/
def pureEnv (stops : List String) (lem : String → String) : NlpEnv :=
  { stops := stops
    tokenize := fun s => Except.ok (splitWsStr s)
    lemmatize := fun w => Except.ok (lem w) }

/-- The fixed category list of `NewsClassifierService.CATEGORIES`
(src/backend/model_service.py lines 23-31); `NewsClassifierTrainer.CATEGORIES`
in src/ml_model/train.py lines 23-31 is the same literal. -/
def CATEGORIES : List String :=
  ["Sports", "Politics", "Technology", "Entertainment", "Business", "Health", "Science"]

/-- A fitted `TfidfVectorizer` at its `transform` boundary: a fitted
vectorizer maps any input string to a feature vector and never raises. -/
structure FittedVectorizer where
  transform : String → List ℚ

/-- The `self.vectorizer` slot: `none` models the Python value `None`; a
present vectorizer object may or may not have been fitted (the default model
of `_create_default_sklearn_model` is present but unfitted, and `transform`
on it raises `NotFittedError`). -/
structure Vectorizer where
  fitted : Option FittedVectorizer

/-- A fitted `MultinomialNB` at its `predict` / `predict_proba` boundary.
`classes` is the model's `classes_` attribute; `joint v` stands for the
exponentiated joint log-likelihood of each class at feature vector `v`,
which is positive and has one entry per class; `predict_proba` is its
normalization and `predict` its arg-max. -/
structure FittedNB where
  classes : List String
  joint : List ℚ → List ℚ
  classes_nonempty : classes ≠ []
  joint_length : ∀ v, (joint v).length = classes.length
  joint_pos : ∀ v, ∀ x ∈ joint v, 0 < x

/-- The `self.sklearn_model` slot: present or `None`, and a present model may
be unfitted (then `predict` raises `NotFittedError`). -/
structure SkModel where
  fitted : Option FittedNB

/-- Result of one call of the zero-shot transformers pipeline: parallel
ordered label and score lists. -/
structure ZeroShotResult where
  labels : List String
  scores : List ℚ

/-- The loaded service state of `NewsClassifierService`: the `transformer_model`
slot holds, when present, the zero-shot pipeline as a function from the input
text to the outcome of the external call (an exception or a result). -/
structure Service where
  sklearn_model : Option SkModel
  vectorizer : Option Vectorizer
  transformer_model : Option (String → Except String ZeroShotResult)

/-- Exceptions surfaced by the sklearn prediction path. -/
inductive SkErr where
  /-- `ValueError("Sklearn model not initialized")`, raised at
  src/backend/model_service.py line 139. -/
  | notInitialized
  /-- scikit-learn's `NotFittedError`, raised by `transform` or `predict` on
  an unfitted estimator and re-raised by the `except` clause at line 170. -/
  | notFitted
  /-- `IndexError` from `probabilities[i]` in the comprehension at lines
  150-153 when the probability vector is shorter than `CATEGORIES`. -/
  | indexError
deriving DecidableEq

/-- `predict_proba` of a fitted multinomial naive Bayes: the joint scores
normalized to sum to one. -/
def predictProba (nb : FittedNB) (v : List ℚ) : List ℚ :=
  let j := nb.joint v
  j.map (fun x => x / j.sum)

/-- Maximum of a list of rationals (`max(probabilities)` in Python); `0` on
the empty list, which the prediction path never passes to it. -/
def listMax : List ℚ → ℚ
  | [] => 0
  | x :: xs => xs.foldl max x

/-- First index at which a list attains its maximum (`np.argmax`). -/
def idxOfMax (l : List ℚ) : Nat :=
  (((List.range l.length).filter (fun i => l.get? i == some (listMax l))).head?).getD 0

/-- `self.sklearn_model.predict(text_vector)[0]`: the class of largest joint
score, first index on ties.  The labels are the category-name strings used by
src/ml_model/train.py, so the `isinstance(prediction, int)` test of line 163
is false and the prediction is returned as is. -/
def predictClass (nb : FittedNB) (v : List ℚ) : String :=
  nb.classes.getD (idxOfMax (nb.joint v)) ""

/-- The dict comprehension of src/backend/model_service.py lines 150-153:
`CATEGORIES[i]` paired with `probabilities[i]`, positionally. -/
def confidenceScoresList (probs : List ℚ) : List (String × ℚ) :=
  CATEGORIES.zip probs

/-- `sorted(confidence_scores.items(), key=lambda x: x[1], reverse=True)`:
stable sort, descending by score (lines 156-160). -/
def sortScores (l : List (String × ℚ)) : List (String × ℚ) :=
  List.insertionSort (fun a b => b.2 ≤ a.2) l

/-- The dictionary returned by `_predict_sklearn` / `_predict_transformer`
(`processing_time`, a wall-clock measurement, is outside the embedding). -/
structure PredResult where
  category : String
  confidence : ℚ
  confidence_scores : List (String × ℚ)
  model_type : String
deriving DecidableEq

/-- `NewsClassifierService._predict_sklearn` (src/backend/model_service.py
lines 136-170): raise `notInitialized` when classifier or vectorizer is
absent; otherwise vectorize (raising `NotFittedError` on an unfitted
vectorizer), predict (raising `NotFittedError` on an unfitted model), build
the confidence dict over `CATEGORIES` (raising `IndexError` when the
probability vector is too short), and return category, max probability and
the sorted scores. -/
def predict_sklearn (svc : Service) (text : String) : Except SkErr PredResult :=
  match svc.sklearn_model, svc.vectorizer with
  | some m, some vz =>
    match vz.fitted with
    | none => Except.error SkErr.notFitted
    | some fv =>
      match m.fitted with
      | none => Except.error SkErr.notFitted
      | some nb =>
        let v := fv.transform text
        let probs := predictProba nb v
        if CATEGORIES.length ≤ probs.length then
          Except.ok
            { category := predictClass nb v
              confidence := listMax probs
              confidence_scores := sortScores (confidenceScoresList probs)
              model_type := "sklearn" }
        else Except.error SkErr.indexError
  | _, _ => Except.error SkErr.notInitialized

/-- `NewsClassifierService._predict_transformer` (lines 172-191): on any
exception from the zero-shot call — including an empty label or score list
making `result['labels'][0]` raise — fall back to `_predict_sklearn`;
otherwise return the top label, its score and the zipped score dict. -/
def predict_transformer (svc : Service) (out : Except String ZeroShotResult)
    (text : String) : Except SkErr PredResult :=
  match out with
  | Except.error _ => predict_sklearn svc text
  | Except.ok r =>
    match r.labels.head?, r.scores.head? with
    | some l0, some s0 =>
      Except.ok
        { category := l0
          confidence := s0
          confidence_scores := r.labels.zip r.scores
          model_type := "transformer" }
    | _, _ => predict_sklearn svc text

/-- `NewsClassifierService.predict` (lines 115-134): route to the transformer
path only when `model_type == "transformer"` and the transformer slot is
truthy; every other backend identifier goes to the sklearn path. -/
def predict (svc : Service) (text : String) (model_type : String) :
    Except SkErr PredResult :=
  match svc.transformer_model with
  | some tm =>
    if model_type = "transformer" then predict_transformer svc (tm text) text
    else predict_sklearn svc text
  | none => predict_sklearn svc text

/-- Code-point lexicographic order on character lists — the order in which
Python and numpy compare strings. -/
def charListLe : List Char → List Char → Bool
  | [], _ => true
  | _ :: _, [] => false
  | c :: cs, d :: ds => if c = d then charListLe cs ds else decide (c < d)

/-- Code-point lexicographic order on strings. -/
def strLeb (a b : String) : Bool :=
  charListLe a.toList b.toList

/-- Insert a string into a lexicographically sorted list of strings. -/
def insertStr (a : String) : List String → List String
  | [] => [a]
  | b :: bs => if strLeb a b then a :: b :: bs else b :: insertStr a bs

/-- Insertion sort of strings in lexicographic order. -/
def sortStrs : List String → List String
  | [] => []
  | a :: as => insertStr a (sortStrs as)

/-- `np.unique` over the training labels: the sorted list of distinct label
strings.  `MultinomialNB.fit` orders `classes_` — and hence the columns of
`predict_proba` — this way, and `NewsClassifierTrainer.load_data`
(src/ml_model/train.py line 72) returns its categories sorted as well. -/
def npUniqueSorted (labels : List String) : List String :=
  (sortStrs labels).dedup

/-- The labels of `NewsClassifierTrainer._get_sample_data` (src/ml_model/train.py
lines 84-167): eight samples per category, in `CATEGORIES` order. -/
def sampleLabels : List String :=
  CATEGORIES.flatMap (fun c => List.replicate 8 c)

/-- Request item of the batch endpoint (src/backend/main.py lines 50-53);
`model_type` defaults to `"sklearn"`. -/
structure ArticleInput where
  text : String
  model_type : String := "sklearn"

/-- `PredictionResponse` of src/backend/main.py lines 56-62 (wall-clock
`processing_time` is outside the embedding). -/
structure PredictionResponse where
  category : String
  confidence : ℚ
  confidence_scores : List (String × ℚ)
  input_text : String
deriving DecidableEq

/-- The per-item error dict appended at src/backend/main.py lines 231-234. -/
structure ErrEntry where
  error : SkErr
  text : String
deriving DecidableEq

/-- Errors raised by the endpoint before the per-item loop. -/
inductive HttpError where
  | serviceUnavailable (detail : String)
  | badRequest (detail : String)
deriving DecidableEq

/-- `article.text[:100] + "..." if len(article.text) > 100 else article.text`. -/
def truncInput (t : String) : String :=
  if t.length > 100 then t.take 100 ++ "..." else t

/-- Build the success entry of the batch loop (src/backend/main.py lines
222-228). -/
def mkResponse (a : ArticleInput) (r : PredResult) : PredictionResponse :=
  { category := r.category
    confidence := r.confidence
    confidence_scores := r.confidence_scores
    input_text := truncInput a.text }

/-- Build the error entry of the batch loop (src/backend/main.py lines
231-234); note the text is truncated unconditionally there. -/
def mkErrEntry (a : ArticleInput) (e : SkErr) : ErrEntry :=
  { error := e, text := a.text.take 100 ++ "..." }

/-- The value returned by `batch_predict` on the success path. -/
structure BatchResult where
  predictions : List (PredictionResponse ⊕ ErrEntry)
  total : Nat
  successful : Nat
deriving DecidableEq

/-- Whether a collected entry is a successful prediction.  In Python,
`"error" not in r` is `True` for a `PredictionResponse` (iterating a pydantic
model yields field-name/value pairs, never the bare string `"error"`) and
`False` for the error dicts, so `successful` counts exactly the successful
entries. -/
def isOkEntry : PredictionResponse ⊕ ErrEntry → Bool
  | Sum.inl _ => true
  | Sum.inr _ => false

/-- The `/batch-predict` endpoint (src/backend/main.py lines 199-236): reject
when the service is uninitialized (503) or more than 100 articles are sent
(400, before any item is processed); otherwise preprocess and predict each
item inside a per-item `try`, collecting a success entry or an error entry,
and return the collection with `total` and `successful` counts. -/
def batch_predict (env : NlpEnv) (svcOpt : Option Service)
    (articles : List ArticleInput) : Except HttpError BatchResult :=
  match svcOpt with
  | none => Except.error (HttpError.serviceUnavailable "Classifier service not initialized")
  | some svc =>
    if articles.length > 100 then
      Except.error (HttpError.badRequest "Maximum 100 articles per request")
    else
      let results := articles.map (fun a =>
        match predict svc (preprocess_text env a.text) a.model_type with
        | Except.ok r => Sum.inl (mkResponse a r)
        | Except.error e => Sum.inr (mkErrEntry a e))
      Except.ok
        { predictions := results
          total := results.length
          successful := (results.filter isOkEntry).length }

/-- One row of the combined raw dataset tables of the curator scripts. -/
structure RawRow where
  text : String
  category : String
deriving DecidableEq

/-- The length-filter step of
`MultiSourceNewsDownloader.combine_all_datasets`
(src/ml_model/download_multisource_data.py lines 227-231): keep rows with
`text_length > 50`, then rows with `text_length < 20000`. -/
def lengthFilterMultisource (rows : List RawRow) : List RawRow :=
  (rows.filter (fun r => 50 < r.text.length)).filter (fun r => r.text.length < 20000)

/-- The length-filter step of `ComprehensiveNewsDownloader.combine_datasets`
(src/ml_model/download_comprehensive_data.py lines 312-316): keep rows with
`text_length > 50`, then rows with `text_length < 15000`. -/
def lengthFilterComprehensive (rows : List RawRow) : List RawRow :=
  (rows.filter (fun r => 50 < r.text.length)).filter (fun r => r.text.length < 15000)

/-- Extract the success value of an `Except`, if any. -/
def getOk? : Except ε α → Option α
  | Except.ok a => some a
  | Except.error _ => none

/-- Whether an `Except` is an error. -/
def isErr : Except ε α → Bool
  | Except.ok _ => false
  | Except.error _ => true

/-- A concrete normalization environment: a small stopword set and the
identity lemmatizer.  On every word appearing in the concrete inputs below it
agrees with the real NLTK data ("httpx", "cats", "ran", "quickly", … are not
English stopwords and are their own WordNet lemmas). -/
def demoEnv : NlpEnv := pureEnv ["the"] id

/-- An environment whose tokenizer raises — the behaviour of `word_tokenize`
when the `punkt` data pack is missing (its download at src/backend/utils.py
lines 16-21 is itself guarded by a `try`). -/
def failEnv : NlpEnv :=
  { stops := []
    tokenize := fun _ => Except.error "LookupError"
    lemmatize := fun w => Except.ok w }

/-- A concrete fitted naive-Bayes model over the seven categories in their
trained (sorted) order, with constant joint scores. -/
def nb7 : FittedNB :=
  { classes := ["Business", "Entertainment", "Health", "Politics", "Science", "Sports", "Technology"]
    joint := fun _ => List.replicate 7 1
    classes_nonempty := by decide
    joint_length := fun _ => rfl
    joint_pos := by
      intro v
      show ∀ x ∈ List.replicate 7 (1 : ℚ), 0 < x
      decide }

/-- A concrete fitted model with eight classes, as produced by training on a
curated corpus holding an eighth category; the last class has the largest
joint score. -/
def nb8 : FittedNB :=
  { classes := ["Business", "Crime", "Entertainment", "Health", "Politics", "Science", "Sports",
      "Technology"]
    joint := fun _ => [1, 1, 1, 1, 1, 1, 1, 7]
    classes_nonempty := by decide
    joint_length := fun _ => rfl
    joint_pos := by
      intro v
      show ∀ x ∈ [(1 : ℚ), 1, 1, 1, 1, 1, 1, 7], 0 < x
      decide }

/-- A concrete fitted vectorizer (its feature values are irrelevant to the
properties below because the concrete models have constant joint scores). -/
def fvEmpty : FittedVectorizer := ⟨fun _ => []⟩

/-- A service holding the seven-class model, no transformer. -/
def demoService : Service := ⟨some ⟨some nb7⟩, some ⟨some fvEmpty⟩, none⟩

/-- A service holding the eight-class model. -/
def svc8 : Service := ⟨some ⟨some nb8⟩, some ⟨some fvEmpty⟩, none⟩

/-- The service state after `_create_default_sklearn_model`: classifier and
vectorizer objects present but never fitted. -/
def svcDefault : Service := ⟨some ⟨none⟩, some ⟨none⟩, none⟩

/-- A service with no models loaded at all. -/
def svcEmpty : Service := ⟨none, none, none⟩

/-- A zero-shot pipeline whose call always raises. -/
def failingTm : String → Except String ZeroShotResult := fun _ => Except.error "boom"

/-- A service whose transformer slot is present but always raises. -/
def svcTm : Service := ⟨some ⟨some nb7⟩, some ⟨some fvEmpty⟩, some failingTm⟩

/-- The probability vector used to exhibit the training/inference
misalignment: seven distinct probabilities summing to one, positionally
aligned (as `predict_proba` output is) with the sorted trained classes. -/
def demoProbs : List ℚ := [1/28, 2/28, 3/28, 4/28, 5/28, 6/28, 7/28]

/-- A dataset row whose text has length exactly 50. -/
def row50 : RawRow := ⟨String.mk (List.replicate 50 'a'), "Sports"⟩

/-- A dataset row whose text has length exactly 51. -/
def row51 : RawRow := ⟨String.mk (List.replicate 51 'a'), "Sports"⟩

/-- A concrete article input. -/
def art1 : ArticleInput := ⟨"hello world", "sklearn"⟩

/-- The probability vector of the seven-class demo model on one input. -/
def probs7 : List ℚ := predictProba nb7 (fvEmpty.transform "game")

/-- The result record `_predict_sklearn` produces for the seven-class demo
model. -/
def rToy : PredResult :=
  { category := predictClass nb7 (fvEmpty.transform "game")
    confidence := listMax probs7
    confidence_scores := sortScores (confidenceScoresList probs7)
    model_type := "sklearn" }

/-! ### Helper lemmas -/

theorem sum_map_div (l : List ℚ) (c : ℚ) : (l.map (fun x => x / c)).sum = l.sum / c := by
  induction l with
  | nil => simp
  | cons x xs ih => simp [ih, add_div]

theorem le_foldl_max (l : List ℚ) (x : ℚ) : x ≤ l.foldl max x := by
  induction l generalizing x with
  | nil => exact le_refl x
  | cons y ys ih => exact le_trans (le_max_left x y) (ih (max x y))

theorem mem_le_foldl_max (l : List ℚ) (x : ℚ) : ∀ y ∈ l, y ≤ l.foldl max x := by
  induction l generalizing x with
  | nil => intro y hy; exact absurd hy (List.not_mem_nil y)
  | cons z zs ih =>
    intro y hy
    rcases List.mem_cons.mp hy with rfl | hy
    · exact le_trans (le_max_right x y) (le_foldl_max zs (max x y))
    · exact ih (max x z) y hy

theorem foldl_max_mem (l : List ℚ) (x : ℚ) : l.foldl max x = x ∨ l.foldl max x ∈ l := by
  induction l generalizing x with
  | nil => exact Or.inl rfl
  | cons y ys ih =>
    rcases ih (max x y) with h | h
    · rcases max_choice x y with hm | hm
      · exact Or.inl (by rw [List.foldl_cons, h, hm])
      · refine Or.inr ?_
        rw [List.foldl_cons, h, hm]
        exact List.mem_cons_self y ys
    · exact Or.inr (List.mem_cons_of_mem y h)

theorem listMax_mem (l : List ℚ) (h : l ≠ []) : listMax l ∈ l := by
  cases l with
  | nil => exact absurd rfl h
  | cons x xs =>
    show xs.foldl max x ∈ x :: xs
    rcases foldl_max_mem xs x with h2 | h2
    · rw [h2]; exact List.mem_cons_self x xs
    · exact List.mem_cons_of_mem x h2

theorem le_listMax (l : List ℚ) : ∀ y ∈ l, y ≤ listMax l := by
  cases l with
  | nil => intro y hy; exact absurd hy (List.not_mem_nil y)
  | cons x xs =>
    intro y hy
    show y ≤ xs.foldl max x
    rcases List.mem_cons.mp hy with rfl | hy
    · exact le_foldl_max xs y
    · exact mem_le_foldl_max xs x y hy

theorem listMax_perm (l1 l2 : List ℚ) (hp : l1.Perm l2) (h : l1 ≠ []) :
    listMax l1 = listMax l2 := by
  have h2 : l2 ≠ [] := by
    intro he
    exact h (List.Perm.eq_nil (he ▸ hp))
  exact le_antisymm
    (le_listMax l2 _ (hp.mem_iff.mp (listMax_mem l1 h)))
    (le_listMax l1 _ (hp.mem_iff.mpr (listMax_mem l2 h2)))

theorem sortScores_perm (l : List (String × ℚ)) : (sortScores l).Perm l :=
  List.perm_insertionSort _ l

theorem predictProba_length (nb : FittedNB) (v : List ℚ) :
    (predictProba nb v).length = nb.classes.length := by
  simp [predictProba, nb.joint_length]

theorem predictProba_sum (nb : FittedNB) (v : List ℚ) : (predictProba nb v).sum = 1 := by
  have hne : nb.joint v ≠ [] := by
    intro h
    have h0 : nb.classes.length = 0 := by rw [← nb.joint_length v, h]; rfl
    exact nb.classes_nonempty (List.eq_nil_of_length_eq_zero h0)
  have hpos : 0 < (nb.joint v).sum :=
    List.sum_pos _ (fun x hx => nb.joint_pos v x hx) hne
  simp only [predictProba, sum_map_div]
  exact div_self (ne_of_gt hpos)

theorem predict_sklearn_model_type (svc : Service) (text : String) (r : PredResult)
    (h : predict_sklearn svc text = Except.ok r) : r.model_type = "sklearn" := by
  unfold predict_sklearn at h
  split at h
  · split at h
    · exact absurd h (by simp)
    · dsimp only at h
      split at h
      · exact absurd h (by simp)
      · split at h
        · simp only [Except.ok.injEq] at h
          subst h
          rfl
        · exact absurd h (by simp)
  · exact absurd h (by simp)

theorem predict_nontransformer (svc : Service) (text mt : String) (h : mt ≠ "transformer") :
    predict svc text mt = predict_sklearn svc text := by
  cases hs : svc.transformer_model with
  | none => simp [predict, hs]
  | some tm => simp [predict, hs, h]

theorem lemmatizeKept_ok (env : NlpEnv) (toks : List String)
    (h : ∀ t ∈ toks, ¬ (t ∈ env.stops ∨ t.length ≤ 2) ∧ env.lemmatize t = Except.ok t) :
    lemmatizeKept env toks = Except.ok toks := by
  induction toks with
  | nil => rfl
  | cons t rest ih =>
    obtain ⟨hkeep, hlem⟩ := h t (List.mem_cons_self t rest)
    have ihr := ih (fun u hu => h u (List.mem_cons_of_mem t hu))
    simp only [lemmatizeKept, if_neg hkeep]
    rw [hlem, ihr]
    rfl

theorem preprocess_fixed (stops : List String) (lem : String → String) (s : String)
    (h1 : cleanStage s = s)
    (h7 : ∀ tok ∈ splitWsStr s, ¬ (tok ∈ stops ∨ tok.length ≤ 2) ∧ lem tok = tok)
    (h8 : String.intercalate " " (splitWsStr s) = s) :
    preprocess_text (pureEnv stops lem) s = s := by
  have htok : lemmatizeKept (pureEnv stops lem) (splitWsStr s) = Except.ok (splitWsStr s) :=
    lemmatizeKept_ok _ _ (fun t ht => ⟨(h7 t ht).1, by simp [pureEnv, (h7 t ht).2]⟩)
  unfold preprocess_text
  dsimp only
  rw [show (pureEnv stops lem).tokenize (cleanStage s) =
    Except.ok (splitWsStr (cleanStage s)) from rfl, h1]
  dsimp only
  rw [htok]
  dsimp only
  rw [h8]
  split <;> rfl

/-! ### Claim theorems -/

/-- C1: the category order used at training time (sorted distinct labels, the
order of the `predict_proba` columns) differs from the fixed `CATEGORIES`
order used at inference time, so the dict comprehension of `_predict_sklearn`
pairs each category key with another category's probability: on the model
trained from the sample data, `confidence_scores["Sports"]` receives the
probability of `"Business"` (position 0), while the model's probability for
`"Sports"` sits at position 5 of the vector.  The claimed invariant fails on
the code. -/
theorem c1_theorem :
    npUniqueSorted sampleLabels ≠ CATEGORIES ∧
    npUniqueSorted sampleLabels =
      ["Business", "Entertainment", "Health", "Politics", "Science", "Sports", "Technology"] ∧
    demoProbs.sum = 1 ∧
    (confidenceScoresList demoProbs).lookup "Sports" = some (1/28) ∧
    demoProbs.get? ((npUniqueSorted sampleLabels).indexOf "Sports") = some (6/28) ∧
    ((1 : ℚ)/28) ≠ 6/28 :=
  ⟨by decide, by decide, by simp [demoProbs]; norm_num, rfl, rfl, by norm_num⟩

/-- C2 (amended): whenever the trained model has exactly as many classes as
the fixed category list, a successful statistical prediction returns a
distribution whose values sum to 1 and a confidence equal to the maximum
value in that distribution. -/
theorem c2_theorem (nb : FittedNB) (fv : FittedVectorizer)
    (tmo : Option (String → Except String ZeroShotResult)) (text : String)
    (hlen : nb.classes.length = CATEGORIES.length) (r : PredResult)
    (h : predict_sklearn ⟨some ⟨some nb⟩, some ⟨some fv⟩, tmo⟩ text = Except.ok r) :
    (r.confidence_scores.map Prod.snd).sum = 1 ∧
    r.confidence = listMax (r.confidence_scores.map Prod.snd) := by
  have hplen : (predictProba nb (fv.transform text)).length = CATEGORIES.length := by
    rw [predictProba_length, hlen]
  have hcond : CATEGORIES.length ≤ (predictProba nb (fv.transform text)).length :=
    le_of_eq hplen.symm
  have hred : predict_sklearn ⟨some ⟨some nb⟩, some ⟨some fv⟩, tmo⟩ text =
      Except.ok
        { category := predictClass nb (fv.transform text)
          confidence := listMax (predictProba nb (fv.transform text))
          confidence_scores :=
            sortScores (confidenceScoresList (predictProba nb (fv.transform text)))
          model_type := "sklearn" } := by
    unfold predict_sklearn
    dsimp only
    rw [if_pos hcond]
  rw [hred] at h
  simp only [Except.ok.injEq] at h
  subst h
  have hsnd : (confidenceScoresList (predictProba nb (fv.transform text))).map Prod.snd =
      predictProba nb (fv.transform text) :=
    List.map_snd_zip _ _ (le_of_eq hplen)
  have hperm : ((sortScores (confidenceScoresList (predictProba nb (fv.transform text)))).map
      Prod.snd).Perm (predictProba nb (fv.transform text)) := by
    have hperm0 := (sortScores_perm
      (confidenceScoresList (predictProba nb (fv.transform text)))).map Prod.snd
    rw [hsnd] at hperm0
    exact hperm0
  have hne : predictProba nb (fv.transform text) ≠ [] := by
    intro he
    rw [he] at hplen
    exact absurd hplen.symm (by decide)
  refine ⟨?_, ?_⟩
  · rw [hperm.sum_eq, predictProba_sum]
  · exact listMax_perm _ _ hperm.symm hne

/-- C2 counterexample: on a trained model with eight classes (one more than
the fixed category list) the statistical prediction succeeds, yet the
returned distribution sums to 1/2 instead of 1 and the reported confidence
(1/2, the hidden eighth class's probability) is not the maximum value 1/14 of
the returned distribution.  This refutes the claim as stated over every
trained classifier. -/
theorem c2_cex :
    (getOk? (predict_sklearn svc8 "t")).map
        (fun r => ((r.confidence_scores.map Prod.snd).sum, r.confidence,
          listMax (r.confidence_scores.map Prod.snd))) =
      some (1/2, 1/2, 1/14) ∧
    ((1 : ℚ)/2) ≠ 1 ∧ ((1 : ℚ)/2) ≠ 1/14 := by
  have hp : predictProba nb8 (fvEmpty.transform "t") =
      [1/14, 1/14, 1/14, 1/14, 1/14, 1/14, 1/14, 7/14] := by
    show ([(1 : ℚ), 1, 1, 1, 1, 1, 1, 7].map
      (fun x => x / ([(1 : ℚ), 1, 1, 1, 1, 1, 1, 7]).sum)) = _
    norm_num
  have hred : predict_sklearn svc8 "t" = Except.ok
      { category := predictClass nb8 (fvEmpty.transform "t")
        confidence := listMax (predictProba nb8 (fvEmpty.transform "t"))
        confidence_scores :=
          sortScores (confidenceScoresList (predictProba nb8 (fvEmpty.transform "t")))
        model_type := "sklearn" } := rfl
  have hsnd : (confidenceScoresList (predictProba nb8 (fvEmpty.transform "t"))).map Prod.snd =
      [(1 : ℚ)/14, 1/14, 1/14, 1/14, 1/14, 1/14, 1/14] := by
    rw [confidenceScoresList, hp]; rfl
  have hperm : ((sortScores (confidenceScoresList (predictProba nb8 (fvEmpty.transform "t")))).map
      Prod.snd).Perm ([(1 : ℚ)/14, 1/14, 1/14, 1/14, 1/14, 1/14, 1/14]) := by
    have h0 := (sortScores_perm (confidenceScoresList
      (predictProba nb8 (fvEmpty.transform "t")))).map Prod.snd
    rw [hsnd] at h0
    exact h0
  have hsum : ((sortScores (confidenceScoresList
      (predictProba nb8 (fvEmpty.transform "t")))).map Prod.snd).sum = 1/2 := by
    rw [hperm.sum_eq]
    norm_num
  have hmax : listMax ((sortScores (confidenceScoresList
      (predictProba nb8 (fvEmpty.transform "t")))).map Prod.snd) = 1/14 := by
    rw [listMax_perm _ _ hperm (by
      intro he
      have hlen := hperm.length_eq
      rw [he] at hlen
      exact absurd hlen.symm (by decide))]
    norm_num [listMax, max_self]
  have hconf : listMax (predictProba nb8 (fvEmpty.transform "t")) = 1/2 := by
    rw [hp]
    have hm : max ((1 : ℚ)/14) (7/14) = 7/14 := max_eq_right (by norm_num)
    norm_num [listMax, max_self, hm]
  refine ⟨?_, by norm_num, by norm_num⟩
  rw [hred]
  simp only [getOk?, Option.map]
  rw [hsum, hmax, hconf]

/-- C2 witness: the amended claim instantiated on the concrete seven-class
model. -/
theorem c2_witness :
    nb7.classes.length = CATEGORIES.length ∧
    ((rToy.confidence_scores.map Prod.snd).sum = 1 ∧
      rToy.confidence = listMax (rToy.confidence_scores.map Prod.snd)) :=
  ⟨rfl, c2_theorem nb7 fvEmpty none "game" rfl rToy rfl⟩

/-- C3: when the transformer backend is requested and available but its call
raises, `predict` returns exactly the statistical-path result — the
exception is never propagated — and any returned result carries the
`"sklearn"` backend identifier. -/
theorem c3_theorem (svc : Service) (tm : String → Except String ZeroShotResult)
    (text e : String) (hsvc : svc.transformer_model = some tm)
    (hfail : tm text = Except.error e) :
    predict svc text "transformer" = predict_sklearn svc text ∧
    (∀ r, predict svc text "transformer" = Except.ok r → r.model_type = "sklearn") := by
  have heq : predict svc text "transformer" = predict_sklearn svc text := by
    simp [predict, hsvc, hfail, predict_transformer]
  exact ⟨heq, fun r hr => predict_sklearn_model_type svc text r (heq ▸ hr)⟩

/-- C3 witness: the fallback on a concrete service whose zero-shot pipeline
always raises. -/
theorem c3_witness :
    svcTm.transformer_model = some failingTm ∧
    failingTm "txt" = Except.error "boom" ∧
    (predict svcTm "txt" "transformer" = predict_sklearn svcTm "txt" ∧
      (∀ r, predict svcTm "txt" "transformer" = Except.ok r → r.model_type = "sklearn")) :=
  ⟨rfl, rfl, c3_theorem svcTm failingTm "txt" "boom" rfl rfl⟩

/-- C4 (amended): every statistical-prediction call on a service whose
classifier or vectorizer is absent, or whose vectorizer was never fitted (or
whose model was never fitted), fails with an error and never returns a
prediction; when a component is absent the error is precisely the
not-initialized `ValueError`.  (A present-but-unfitted component surfaces the
library's `NotFittedError` instead.) -/
theorem c4_theorem (svc : Service) (text : String)
    (h : svc.sklearn_model = none ∨ svc.vectorizer = none ∨
      (∃ vz, svc.vectorizer = some vz ∧ vz.fitted = none) ∨
      (∃ m, svc.sklearn_model = some m ∧ m.fitted = none)) :
    isErr (predict_sklearn svc text) = true ∧
    ((svc.sklearn_model = none ∨ svc.vectorizer = none) →
      predict_sklearn svc text = Except.error SkErr.notInitialized) := by
  constructor
  · rcases h with h | h | ⟨vz, hvz, hf⟩ | ⟨m, hm, hf⟩
    · simp [predict_sklearn, h, isErr]
    · cases hm : svc.sklearn_model <;> simp [predict_sklearn, h, hm, isErr]
    · cases hm : svc.sklearn_model with
      | none => simp [predict_sklearn, hm, isErr]
      | some m => simp [predict_sklearn, hm, hvz, hf, isErr]
    · cases hv : svc.vectorizer with
      | none => simp [predict_sklearn, hm, hv, isErr]
      | some vz =>
        cases hvf : vz.fitted with
        | none => simp [predict_sklearn, hm, hv, hvf, isErr]
        | some fv => simp [predict_sklearn, hm, hv, hvf, hf, isErr]
  · intro h2
    rcases h2 with h2 | h2
    · simp [predict_sklearn, h2]
    · cases hm : svc.sklearn_model <;> simp [predict_sklearn, hm, h2]

/-- C4 counterexample: on the default service (classifier and vectorizer
present but never fitted) the raised error is the library's not-fitted
error, not the not-initialized `ValueError` — so "raises the not-initialized
error" does not hold verbatim for the never-fitted case. -/
theorem c4_cex :
    predict_sklearn svcDefault "game" = Except.error SkErr.notFitted ∧
    SkErr.notFitted ≠ SkErr.notInitialized :=
  ⟨rfl, by decide⟩

/-- C4 witness: the amended claim instantiated on the service with no models
loaded at all. -/
theorem c4_witness :
    (svcEmpty.sklearn_model = none ∨ svcEmpty.vectorizer = none ∨
      (∃ vz, svcEmpty.vectorizer = some vz ∧ vz.fitted = none) ∨
      (∃ m, svcEmpty.sklearn_model = some m ∧ m.fitted = none)) ∧
    (isErr (predict_sklearn svcEmpty "game") = true ∧
      ((svcEmpty.sklearn_model = none ∨ svcEmpty.vectorizer = none) →
        predict_sklearn svcEmpty "game" = Except.error SkErr.notInitialized)) :=
  ⟨Or.inl rfl, c4_theorem svcEmpty "game" (Or.inl rfl)⟩

/-- C5 (amended): `preprocess_text` is total and never raises, but on an
internal error during tokenization or lemmatization it returns the text in
its current partially-processed form — the cleaned string — not necessarily
the original input. -/
theorem c5_theorem (env : NlpEnv) (text : String)
    (h : isErr (env.tokenize (cleanStage text)) = true ∨
      ∃ toks, env.tokenize (cleanStage text) = Except.ok toks ∧
        isErr (lemmatizeKept env toks) = true) :
    preprocess_text env text = cleanStage text := by
  unfold preprocess_text
  dsimp only
  rcases h with h | ⟨toks, htoks, herr⟩
  · cases he : env.tokenize (cleanStage text) with
    | error e => rfl
    | ok toks => rw [he] at h; simp [isErr] at h
  · rw [htoks]
    dsimp only
    cases hl : lemmatizeKept env toks with
    | error e => rfl
    | ok ls => rw [hl] at herr; simp [isErr] at herr

/-- C5 counterexample: with a tokenizer that raises (the missing-data case
the repository itself anticipates), the input `"ABC"` comes back as the
already-lower-cased `"abc"`, not as the original text unmodified. -/
theorem c5_cex :
    preprocess_text failEnv "ABC" = "abc" ∧ "abc" ≠ "ABC" :=
  ⟨by decide, by decide⟩

/-- C5 witness: the amended claim instantiated on the failing environment. -/
theorem c5_witness :
    (isErr (failEnv.tokenize (cleanStage "ABC")) = true ∨
      ∃ toks, failEnv.tokenize (cleanStage "ABC") = Except.ok toks ∧
        isErr (lemmatizeKept failEnv toks) = true) ∧
    preprocess_text failEnv "ABC" = cleanStage "ABC" :=
  ⟨Or.inl rfl, c5_theorem failEnv "ABC" (Or.inl rfl)⟩

/-- C6 (amended): `preprocess_text` is idempotent on every text whose
normalized output is a fixed point of the cleaning stage and whose tokens
are all kept by the stopword/length filter and fixed by the lemmatizer; it is
not idempotent in general (see the counterexample). -/
theorem c6_theorem (stops : List String) (lem : String → String) (t : String)
    (h1 : cleanStage (preprocess_text (pureEnv stops lem) t) =
      preprocess_text (pureEnv stops lem) t)
    (h7 : ∀ tok ∈ splitWsStr (preprocess_text (pureEnv stops lem) t),
      ¬ (tok ∈ stops ∨ tok.length ≤ 2) ∧ lem tok = tok)
    (h8 : String.intercalate " " (splitWsStr (preprocess_text (pureEnv stops lem) t)) =
      preprocess_text (pureEnv stops lem) t) :
    preprocess_text (pureEnv stops lem) (preprocess_text (pureEnv stops lem) t) =
      preprocess_text (pureEnv stops lem) t :=
  preprocess_fixed stops lem _ h1 h7 h8

/-- C6 counterexample: punctuation removal fabricates the token `"httpx"`
from `"h.t.t.p.x"`, which the URL pattern deletes on the second pass, so
`normalize (normalize t) ≠ normalize t`. -/
theorem c6_cex :
    preprocess_text demoEnv (preprocess_text demoEnv "h.t.t.p.x") ≠
      preprocess_text demoEnv "h.t.t.p.x" := by
  decide

/-- C6 witness: the amended idempotence on a concrete well-behaved text. -/
theorem c6_witness :
    (cleanStage (preprocess_text (pureEnv ["the"] id) "The Cats Ran Quickly") =
      preprocess_text (pureEnv ["the"] id) "The Cats Ran Quickly") ∧
    (∀ tok ∈ splitWsStr (preprocess_text (pureEnv ["the"] id) "The Cats Ran Quickly"),
      ¬ (tok ∈ ["the"] ∨ tok.length ≤ 2) ∧ id tok = tok) ∧
    (String.intercalate " "
        (splitWsStr (preprocess_text (pureEnv ["the"] id) "The Cats Ran Quickly")) =
      preprocess_text (pureEnv ["the"] id) "The Cats Ran Quickly") ∧
    preprocess_text (pureEnv ["the"] id)
        (preprocess_text (pureEnv ["the"] id) "The Cats Ran Quickly") =
      preprocess_text (pureEnv ["the"] id) "The Cats Ran Quickly" :=
  ⟨by decide, by decide, by decide,
    c6_theorem ["the"] id "The Cats Ran Quickly" (by decide) (by decide) (by decide)⟩

/-- C7 (amended): a batch of three texts whose second item is the empty
string, sent to a service with a trained model, is processed in full: the
endpoint performs no per-item emptiness check, the empty item predicts
successfully (an all-zero feature row is valid input to the model), and the
result has `total = 3`, `successful = 3` and zero error entries; item
outcomes are still collected one by one, so a genuine item failure would not
abort the batch. -/
theorem c7_theorem (env : NlpEnv) (tmo : Option (String → Except String ZeroShotResult))
    (fv : FittedVectorizer) (nb : FittedNB)
    (hlen : nb.classes.length = CATEGORIES.length) (a c : String) :
    ∃ b, batch_predict env (some ⟨some ⟨some nb⟩, some ⟨some fv⟩, tmo⟩)
        [⟨a, "sklearn"⟩, ⟨"", "sklearn"⟩, ⟨c, "sklearn"⟩] = Except.ok b ∧
      b.total = 3 ∧ b.successful = 3 ∧
      (b.predictions.filter (fun p => !isOkEntry p)).length = 0 := by
  have hok : ∀ t : String,
      predict_sklearn (⟨some ⟨some nb⟩, some ⟨some fv⟩, tmo⟩ : Service) t =
        Except.ok
          { category := predictClass nb (fv.transform t)
            confidence := listMax (predictProba nb (fv.transform t))
            confidence_scores :=
              sortScores (confidenceScoresList (predictProba nb (fv.transform t)))
            model_type := "sklearn" } := by
    intro t
    have hcond : CATEGORIES.length ≤ (predictProba nb (fv.transform t)).length := by
      rw [predictProba_length, hlen]
    unfold predict_sklearn
    dsimp only
    rw [if_pos hcond]
  have hpred : ∀ t : String,
      predict (⟨some ⟨some nb⟩, some ⟨some fv⟩, tmo⟩ : Service) (preprocess_text env t)
        "sklearn" =
        Except.ok
          { category := predictClass nb (fv.transform (preprocess_text env t))
            confidence := listMax (predictProba nb (fv.transform (preprocess_text env t)))
            confidence_scores := sortScores (confidenceScoresList
              (predictProba nb (fv.transform (preprocess_text env t))))
            model_type := "sklearn" } :=
    fun t => (predict_nontransformer _ _ _ (by decide)).trans (hok _)
  unfold batch_predict
  dsimp only
  rw [if_neg (by simp)]
  simp only [List.map_cons, List.map_nil, hpred]
  exact ⟨_, rfl, rfl, rfl, rfl⟩

/-- C7 counterexample: on the concrete trained demo service, the batch of
three texts with an empty second item returns three successes and zero error
entries, with `total = 3` and `successful = 3` — not one error entry and two
successes with `successful = 2` as claimed. -/
theorem c7_cex :
    (getOk? (batch_predict demoEnv (some demoService)
        [⟨"team won the game", "sklearn"⟩, ⟨"", "sklearn"⟩,
          ⟨"new phone released", "sklearn"⟩])).map
      (fun b => (b.total, b.successful, (b.predictions.filter (fun p => !isOkEntry p)).length)) =
      some (3, 3, 0) ∧
    ((3, 3, 0) : Nat × Nat × Nat) ≠ (3, 2, 1) :=
  ⟨rfl, by decide⟩

/-- C7 witness: the amended claim instantiated on the demo model. -/
theorem c7_witness :
    nb7.classes.length = CATEGORIES.length ∧
    (∃ b, batch_predict demoEnv (some ⟨some ⟨some nb7⟩, some ⟨some fvEmpty⟩, none⟩)
        [⟨"x", "sklearn"⟩, ⟨"", "sklearn"⟩, ⟨"y", "sklearn"⟩] = Except.ok b ∧
      b.total = 3 ∧ b.successful = 3 ∧
      (b.predictions.filter (fun p => !isOkEntry p)).length = 0) :=
  ⟨rfl, c7_theorem demoEnv none fvEmpty nb7 rfl "x" "y"⟩

/-- C8 (amended): the curator's length step keeps a row iff its raw text
length is strictly greater than the lower constant 50 and strictly below the
upper constant (20000 multisource, 15000 comprehensive) — an
exclusive-exclusive range: a row of length exactly 50 is rejected. -/
theorem c8_theorem (rows : List RawRow) (r : RawRow) :
    (r ∈ lengthFilterMultisource rows ↔
      r ∈ rows ∧ 50 < r.text.length ∧ r.text.length < 20000) ∧
    (r ∈ lengthFilterComprehensive rows ↔
      r ∈ rows ∧ 50 < r.text.length ∧ r.text.length < 15000) := by
  constructor <;>
    · simp [lengthFilterMultisource, lengthFilterComprehensive, List.mem_filter, and_assoc]
      exact fun _ => and_comm

/-- C8 counterexample: a row whose text length is exactly 50 — at the lower
bound, hence kept by an inclusive-exclusive reading — is dropped by both
curator scripts. -/
theorem c8_cex :
    row50.text.length = 50 ∧
    lengthFilterMultisource [row50] = [] ∧ lengthFilterComprehensive [row50] = [] := by
  refine ⟨by decide, by decide, by decide⟩

/-- C8 witness: a row of length 51 is kept. -/
theorem c8_witness : row51 ∈ lengthFilterMultisource [row51] :=
  (c8_theorem [row51] row51).1.mpr ⟨by decide, by decide, by decide⟩

/-- C9: a batch of more than 100 articles is rejected with the 400 error
before any item is processed, while a batch of at most 100 articles is
processed in full, one collected outcome per article. -/
theorem c9_theorem (env : NlpEnv) (svc : Service) (articles : List ArticleInput) :
    (articles.length > 100 →
      batch_predict env (some svc) articles =
        Except.error (HttpError.badRequest "Maximum 100 articles per request")) ∧
    (articles.length ≤ 100 →
      ∃ b, batch_predict env (some svc) articles = Except.ok b ∧
        b.total = articles.length ∧ b.predictions.length = articles.length) := by
  constructor
  · intro h
    unfold batch_predict
    dsimp only
    rw [if_pos h]
  · intro h
    have hne : ¬ articles.length > 100 := by omega
    unfold batch_predict
    dsimp only
    rw [if_neg hne]
    exact ⟨_, rfl, by simp, by simp⟩

/-- C9 witness: both directions at concrete batches of 101 and 1 articles. -/
theorem c9_witness :
    ((List.replicate 101 art1).length > 100 ∧
      batch_predict demoEnv (some demoService) (List.replicate 101 art1) =
        Except.error (HttpError.badRequest "Maximum 100 articles per request")) ∧
    ([art1].length ≤ 100 ∧
      ∃ b, batch_predict demoEnv (some demoService) [art1] = Except.ok b ∧
        b.total = [art1].length ∧ b.predictions.length = [art1].length) :=
  ⟨⟨by decide, (c9_theorem demoEnv demoService (List.replicate 101 art1)).1 (by decide)⟩,
    ⟨by decide, (c9_theorem demoEnv demoService [art1]).2 (by decide)⟩⟩

/-- C10: every requested backend identifier other than `"transformer"` —
including arbitrary unknown identifiers — and also a `"transformer"` request
while the transformer slot is empty, routes to the statistical path; the
call behaves exactly like `_predict_sklearn` and no unknown-backend error is
ever raised. -/
theorem c10_theorem (svc : Service) (text mt : String)
    (h : mt ≠ "transformer" ∨ svc.transformer_model = none) :
    predict svc text mt = predict_sklearn svc text := by
  cases hs : svc.transformer_model with
  | none => simp [predict, hs]
  | some tm =>
    rcases h with h | h
    · simp [predict, hs, h]
    · rw [h] at hs; exact absurd hs (by simp)

/-- C10 witness: an unknown backend identifier on a service whose
transformer is present still routes to the statistical path. -/
theorem c10_witness :
    ("weird-backend" ≠ "transformer" ∨ svcTm.transformer_model = none) ∧
    predict svcTm "txt" "weird-backend" = predict_sklearn svcTm "txt" :=
  ⟨Or.inl (by decide), c10_theorem svcTm "txt" "weird-backend" (Or.inl (by decide))⟩

end NewsNLP
